import Mathlib

/-!
Verification of the toaster state machine (src/Source/Toaster.ts).

The source implements the State pattern: an abstract class `ToasterState`
whose four methods all throw `new Error("Invalid operation")`, and four
concrete subclasses (`IdleState`, `BreadInsertedState`, `ToastingState`,
`BreadEjectedState`), each overriding exactly one method to return the
next state.  The context class `Toaster` holds a `_state` field initialised
to `new IdleState()`, logs the current state in its constructor and after
every successful transition, and forwards each operation to `_state`,
reassigning `_state` with the returned value.

We embed the closed set of state subclasses as an inductive type, a thrown
JavaScript `Error` as a value of type `JsError` carried in `Except`, and
the in-place mutation of `Toaster` as explicit state passing: each device
operation returns the outcome together with the device as it stands after
the call (unchanged when the delegated state method throws, since the
exception aborts the method before the assignment and the log).  The
`console.log` notifications a device emits are modelled as the list `log`
of states reported to the logging collaborator, in order.
-/

namespace Appliances

/-- The closed set of concrete `ToasterState` subclasses in the source.
No other subclass exists, so the embedding is an inductive type. -/
inductive ToasterState where
  | IdleState : ToasterState
  | BreadInsertedState : ToasterState
  | ToastingState : ToasterState
  | BreadEjectedState : ToasterState
deriving DecidableEq, Repr, Fintype

/-- A JavaScript `Error` object as thrown by the source: it carries only
its message string. -/
structure JsError where
  message : String
deriving DecidableEq, Repr

/-- The error value thrown by every non-overridden method of the abstract
base class: `throw new Error("Invalid operation")`. -/
def invalidOperation : JsError := ⟨"Invalid operation"⟩

instance {ε α : Type} [DecidableEq ε] [DecidableEq α] : DecidableEq (Except ε α) := fun a b =>
  match a, b with
  | .ok x, .ok y =>
    if h : x = y then isTrue (by rw [h]) else isFalse (fun hc => h (Except.ok.inj hc))
  | .error e, .error f =>
    if h : e = f then isTrue (by rw [h]) else isFalse (fun hc => h (Except.error.inj hc))
  | .ok _, .error _ => isFalse (fun hc => Except.noConfusion hc)
  | .error _, .ok _ => isFalse (fun hc => Except.noConfusion hc)

/-- `insertBread` on a state: overridden only in `IdleState` (returns
`new BreadInsertedState()`); every other subclass inherits the throwing
base implementation. -/
def ToasterState.insertBread : ToasterState → Except JsError ToasterState
  | .IdleState => .ok .BreadInsertedState
  | _ => .error invalidOperation

/-- `pullLever` on a state: overridden only in `BreadInsertedState`
(returns `new ToastingState()`); every other subclass inherits the
throwing base implementation. -/
def ToasterState.pullLever : ToasterState → Except JsError ToasterState
  | .BreadInsertedState => .ok .ToastingState
  | _ => .error invalidOperation

/-- `ejectBread` on a state: overridden only in `ToastingState` (returns
`new BreadEjectedState()`); every other subclass inherits the throwing
base implementation. -/
def ToasterState.ejectBread : ToasterState → Except JsError ToasterState
  | .ToastingState => .ok .BreadEjectedState
  | _ => .error invalidOperation

/-- `removeBread` on a state: overridden only in `BreadEjectedState`
(returns `new IdleState()`); every other subclass inherits the throwing
base implementation. -/
def ToasterState.removeBread : ToasterState → Except JsError ToasterState
  | .BreadEjectedState => .ok .IdleState
  | _ => .error invalidOperation

/-- The four operations of the `ToasterOperations` interface. -/
inductive Op where
  | insertBread : Op
  | pullLever : Op
  | ejectBread : Op
  | removeBread : Op
deriving DecidableEq, Repr, Fintype

/-- Dispatch of an operation name to the corresponding `ToasterState`
method (the virtual call `this._state.<op>()`). -/
def ToasterState.apply (o : Op) (s : ToasterState) : Except JsError ToasterState :=
  match o with
  | .insertBread => s.insertBread
  | .pullLever => s.pullLever
  | .ejectBread => s.ejectBread
  | .removeBread => s.removeBread

/-- The transition table as the spec states it (§3 of the spec): a partial
function from (state, operation) to the next state.  This definition
follows the spec's table, to be compared with the dispatch functions
embedded from the source. -/
def specTable (s : ToasterState) (o : Op) : Option ToasterState :=
  match s, o with
  | .IdleState, .insertBread => some .BreadInsertedState
  | .BreadInsertedState, .pullLever => some .ToastingState
  | .ToastingState, .ejectBread => some .BreadEjectedState
  | .BreadEjectedState, .removeBread => some .IdleState
  | _, _ => none

/-- The successor of each state along the four-edge cycle the spec
describes (Idle → BreadInserted → Toasting → BreadEjected → Idle). -/
def cycleNext : ToasterState → ToasterState
  | .IdleState => .BreadInsertedState
  | .BreadInsertedState => .ToastingState
  | .ToastingState => .BreadEjectedState
  | .BreadEjectedState => .IdleState

/-- All four operations, for counting which are permitted from a state. -/
def allOps : List Op := [.insertBread, .pullLever, .ejectBread, .removeBread]

/-- Whether operation `o` is permitted from state `s`: the delegated state
method returns normally instead of throwing. -/
def permits (s : ToasterState) (o : Op) : Bool :=
  (ToasterState.apply o s).isOk

/-- The `Toaster` context object: its `_state` field together with the
sequence of states it has reported to the logging collaborator
(`console.log(this._state)`), in order. -/
structure Toaster where
  _state : ToasterState
  log : List ToasterState
deriving DecidableEq, Repr

/-- `logCurrentState`: reports the current `_state` to the logging
collaborator (appends it to the notification log). -/
def Toaster.logCurrentState (t : Toaster) : Toaster :=
  { t with log := t.log ++ [t._state] }

/-- `new Toaster()`: the field initialiser sets `_state = new IdleState()`
and the constructor body calls `this.logCurrentState()`. -/
def Toaster.new : Toaster :=
  Toaster.logCurrentState { _state := .IdleState, log := [] }

/-- A `Toaster` operation: delegates to the current state's identically
named method; on normal return it assigns the returned state to `_state`
and logs it; a thrown error aborts the method before the assignment, so
the device is returned unchanged alongside the propagated error. -/
def Toaster.apply (o : Op) (t : Toaster) : Except JsError Unit × Toaster :=
  match ToasterState.apply o t._state with
  | .ok s => (.ok (), Toaster.logCurrentState { t with _state := s })
  | .error e => (.error e, t)

/-- Run a list of operations on a device in call order; a thrown error
propagates, so the remaining calls do not run. -/
def Toaster.runOps (ops : List Op) (t : Toaster) : Except JsError Unit × Toaster :=
  match ops with
  | [] => (.ok (), t)
  | o :: rest =>
    match Toaster.apply o t with
    | (.ok _, t') => Toaster.runOps rest t'
    | (.error e, t') => (.error e, t')

/-- The full cycle of four calls in the order used by the demo script. -/
def cycleOps : List Op := [.insertBread, .pullLever, .ejectBread, .removeBread]

/-- Repeat the four-call cycle `n` times. -/
def Toaster.runCycles : Nat → Toaster → Except JsError Unit × Toaster
  | 0, t => (.ok (), t)
  | n + 1, t =>
    match Toaster.runOps cycleOps t with
    | (.ok _, t') => Toaster.runCycles n t'
    | (.error e, t') => (.error e, t')

/-- A world of two independently constructed devices, for the
instance-independence property. -/
structure TwoDevices where
  d1 : Toaster
  d2 : Toaster
deriving DecidableEq, Repr

/-- Invoke an operation on the first device of the pair; the second
device is not mentioned by the call. -/
def TwoDevices.applyFirst (o : Op) (w : TwoDevices) : Except JsError Unit × TwoDevices :=
  match Toaster.apply o w.d1 with
  | (r, t') => (r, { d1 := t', d2 := w.d2 })

/-- Run a list of operations, all on the first device of the pair, in
call order; a thrown error stops the run. -/
def TwoDevices.runFirst (ops : List Op) (w : TwoDevices) : Except JsError Unit × TwoDevices :=
  match ops with
  | [] => (.ok (), w)
  | o :: rest =>
    match TwoDevices.applyFirst o w with
    | (.ok _, w') => TwoDevices.runFirst rest w'
    | (.error e, w') => (.error e, w')

/-- The property §7 of the spec asserts of the invalid-operation error:
some reading of the error value recovers which operation was attempted
and from which state. -/
def errorIdentifiesAttempt : Prop :=
  ∃ f : JsError → Op × ToasterState,
    ∀ s o e, ToasterState.apply o s = Except.error e → f e = (o, s)

end Appliances

namespace Appliances

/-! ## Helper lemmas -/

/-- A device call behaves as the delegated state method dictates: normal
return commits and logs the new state, a thrown error leaves the device
untouched. -/
theorem Toaster.apply_eq (o : Op) (t : Toaster) :
    Toaster.apply o t =
      (match ToasterState.apply o t._state with
       | .ok s => (Except.ok (), { _state := s, log := t.log ++ [s] })
       | .error e => (Except.error e, t)) := by
  unfold Toaster.apply
  cases h : ToasterState.apply o t._state <;>
    simp [h, Toaster.logCurrentState]

/-- Running the four-call demo cycle from any device in `IdleState`
succeeds and returns to `IdleState`, logging the four traversed states. -/
theorem Toaster.runOps_cycle (t : Toaster) (h : t._state = ToasterState.IdleState) :
    Toaster.runOps cycleOps t =
      (Except.ok (),
       { _state := ToasterState.IdleState,
         log := t.log ++ [ToasterState.BreadInsertedState, ToasterState.ToastingState,
                          ToasterState.BreadEjectedState, ToasterState.IdleState] }) := by
  rcases t with ⟨st, l⟩
  simp only at h
  subst h
  simp [cycleOps, Toaster.runOps, Toaster.apply, ToasterState.apply,
    ToasterState.insertBread, ToasterState.pullLever, ToasterState.ejectBread,
    ToasterState.removeBread, Toaster.logCurrentState]

/-- Repeating the cycle from an idle device always succeeds, ends idle,
and emits exactly four notifications per repetition. -/
theorem Toaster.runCycles_from_idle (n : Nat) (t : Toaster)
    (h : t._state = ToasterState.IdleState) :
    (Toaster.runCycles n t).1 = Except.ok () ∧
    (Toaster.runCycles n t).2._state = ToasterState.IdleState ∧
    (Toaster.runCycles n t).2.log.length = t.log.length + 4 * n := by
  induction n generalizing t with
  | zero => simp [Toaster.runCycles, h]
  | succ n ih =>
    have hc := Toaster.runOps_cycle t h
    have ih' := ih ⟨ToasterState.IdleState, t.log ++ [ToasterState.BreadInsertedState, ToasterState.ToastingState, ToasterState.BreadEjectedState, ToasterState.IdleState]⟩ rfl
    simp only [Toaster.runCycles, hc]
    refine ⟨ih'.1, ih'.2.1, ?_⟩
    rw [ih'.2.2]
    simp only [List.length_append, List.length_cons, List.length_nil]
    ring

/-! ## Claims -/

/-- C1: for every state S and operation O for which the transition table
defines an edge, invoking O on a Device whose current state is S succeeds
and the Device's new current state equals the table's target for (S, O). -/
theorem defined_edges_succeed (s s' : ToasterState) (o : Op) (t : Toaster)
    (hdef : specTable s o = some s') (ht : t._state = s) :
    (Toaster.apply o t).1 = Except.ok () ∧ (Toaster.apply o t).2._state = s' := by
  subst ht
  rcases t with ⟨st, l⟩
  simp only at hdef
  cases st <;> cases o <;>
    simp_all [specTable, Toaster.apply, ToasterState.apply, ToasterState.insertBread,
      ToasterState.pullLever, ToasterState.ejectBread, ToasterState.removeBread,
      Toaster.logCurrentState]

/-- Witness for C1: inserting bread into a fresh (idle) toaster. -/
theorem defined_edges_succeed_witness :
    (Toaster.apply Op.insertBread Toaster.new).1 = Except.ok () ∧
    (Toaster.apply Op.insertBread Toaster.new).2._state = ToasterState.BreadInsertedState :=
  defined_edges_succeed ToasterState.IdleState ToasterState.BreadInsertedState
    Op.insertBread Toaster.new rfl rfl

/-- C2: for every state S and operation O with no edge in the transition
table, invoking O on a Device in state S fails with the invalid-operation
error and the Device is unchanged (same current state, no notification):
the failed transition has no partial effect. -/
theorem undefined_edges_fail_unchanged (s : ToasterState) (o : Op) (t : Toaster)
    (hdef : specTable s o = none) (ht : t._state = s) :
    Toaster.apply o t = (Except.error invalidOperation, t) := by
  subst ht
  rcases t with ⟨st, l⟩
  simp only at hdef
  cases st <;> cases o <;>
    simp_all [specTable, Toaster.apply, ToasterState.apply, ToasterState.insertBread,
      ToasterState.pullLever, ToasterState.ejectBread, ToasterState.removeBread]

/-- Witness for C2: pulling the lever on a fresh (idle) toaster. -/
theorem undefined_edges_fail_unchanged_witness :
    Toaster.apply Op.pullLever Toaster.new = (Except.error invalidOperation, Toaster.new) :=
  undefined_edges_fail_unchanged ToasterState.IdleState Op.pullLever Toaster.new rfl rfl

/-- Counterexample to C3: the error thrown for an undefined pair is the
constant `Error("Invalid operation")`, identical for different attempted
operations, so no reading of the error value can identify which operation
was attempted or from which state. -/
theorem error_does_not_identify_attempt : ¬ errorIdentifiesAttempt := by
  rintro ⟨f, hf⟩
  have h1 := hf ToasterState.IdleState Op.pullLever invalidOperation rfl
  have h2 := hf ToasterState.IdleState Op.ejectBread invalidOperation rfl
  rw [h1] at h2
  exact absurd h2 (by decide)

/-- C3 amended: for every undefined (state, operation) pair, the error
raised is the one fixed `Error` whose message is the string
"Invalid operation"; it identifies neither the attempted operation nor
the state it was attempted from. -/
theorem error_is_constant_invalid_operation (s : ToasterState) (o : Op)
    (hdef : specTable s o = none) :
    ToasterState.apply o s = Except.error { message := "Invalid operation" } := by
  cases s <;> cases o <;> first
    | rfl
    | simp [specTable] at hdef

/-- Witness for amended C3: pulling the lever while idle. -/
theorem error_is_constant_invalid_operation_witness :
    ToasterState.apply Op.pullLever ToasterState.IdleState =
      Except.error { message := "Invalid operation" } :=
  error_is_constant_invalid_operation ToasterState.IdleState Op.pullLever rfl

/-- C4: a freshly constructed Device has current state Idle and its
construction has reported exactly that one state to the logging
collaborator, before any operation is invoked. -/
theorem fresh_device_idle_logged_once :
    Toaster.new._state = ToasterState.IdleState ∧
    Toaster.new.log = [ToasterState.IdleState] :=
  ⟨rfl, rfl⟩

/-- C5: from a fresh Device, each repetition of the four-call sequence
insertBread, pullLever, ejectBread, removeBread succeeds at every step
and returns the Device to Idle; N repetitions leave it in Idle having
produced exactly N×4 notifications beyond the construction one (the
notification log is the Device's only side channel). -/
theorem full_cycle_repeats_to_idle (n : Nat) :
    (Toaster.runCycles n Toaster.new).1 = Except.ok () ∧
    (Toaster.runCycles n Toaster.new).2._state = ToasterState.IdleState ∧
    (Toaster.runCycles n Toaster.new).2.log.length = 1 + 4 * n := by
  have h := Toaster.runCycles_from_idle n Toaster.new rfl
  exact ⟨h.1, h.2.1, h.2.2⟩

/-- C6: from every state exactly one of the four operations is permitted;
every permitted transition moves to the cycle successor and the cycle
successor is reached by some operation, so the reachable transitions form
the single directed 4-cycle Idle → BreadInserted → Toasting →
BreadEjected → Idle with no skipping edge; a non-permitted call leaves
the Device untouched and reports failure. -/
theorem machine_is_single_cycle :
    (∀ s : ToasterState, (allOps.filter (permits s)).length = 1) ∧
    (∀ s s' : ToasterState, ∀ o : Op,
      ToasterState.apply o s = Except.ok s' → s' = cycleNext s) ∧
    (∀ s : ToasterState, ∃ o : Op,
      ToasterState.apply o s = Except.ok (cycleNext s)) ∧
    (∀ t : Toaster, ∀ o : Op, permits t._state o = false →
      Toaster.apply o t = (Except.error invalidOperation, t)) := by
  refine ⟨by decide, by decide, by decide, ?_⟩
  intro t o h
  rcases t with ⟨st, l⟩
  simp only [permits] at h
  cases st <;> cases o <;>
    simp_all [Toaster.apply, ToasterState.apply, ToasterState.insertBread,
      ToasterState.pullLever, ToasterState.ejectBread, ToasterState.removeBread,
      Except.isOk, Except.toBool]

/-- Witness for C6: ejecting bread from a fresh (idle) toaster is
rejected without any effect on the device. -/
theorem machine_is_single_cycle_witness :
    Toaster.apply Op.ejectBread Toaster.new = (Except.error invalidOperation, Toaster.new) :=
  machine_is_single_cycle.2.2.2 Toaster.new Op.ejectBread rfl

/-- C7: on every successful Device call the logging collaborator is
notified exactly once, with the identity of the new current state, as the
only observable effect beyond the state change; a failed call leaves the
notification log (and the device) untouched. -/
theorem success_logs_once_failure_logs_nothing (t : Toaster) (o : Op) :
    (∀ s : ToasterState, ToasterState.apply o t._state = Except.ok s →
      Toaster.apply o t = (Except.ok (), { _state := s, log := t.log ++ [s] })) ∧
    (∀ e : JsError, ToasterState.apply o t._state = Except.error e →
      Toaster.apply o t = (Except.error e, t)) := by
  constructor
  · intro s h
    simp [Toaster.apply, h, Toaster.logCurrentState]
  · intro e h
    simp [Toaster.apply, h]

/-- Witness for C7: inserting bread into a fresh toaster notifies the
logger exactly once, with the new state. -/
theorem success_logs_once_failure_logs_nothing_witness :
    Toaster.apply Op.insertBread Toaster.new =
      (Except.ok (), { _state := ToasterState.BreadInsertedState,
                       log := Toaster.new.log ++ [ToasterState.BreadInsertedState] }) :=
  (success_logs_once_failure_logs_nothing Toaster.new Op.insertBread).1
    ToasterState.BreadInsertedState rfl

/-- C8: each State operation is a pure function of the current variant
and the requested operation: on a defined edge it returns the table's
target variant as a new value (the argument state is not mutated — the
whole behavior is this function of the variant alone). -/
theorem state_ops_pure_function_of_variant (s : ToasterState) (o : Op) :
    ToasterState.apply o s =
      (match specTable s o with
       | some s' => Except.ok s'
       | none => Except.error invalidOperation) := by
  cases s <;> cases o <;> rfl

/-- C9: the Device's current-state field always holds exactly one of the
four concrete variants — after construction and after every call,
successful or failing; there is no fifth (abstract or absent) value. -/
theorem state_field_is_concrete_variant :
    (Toaster.new._state = ToasterState.IdleState ∨
     Toaster.new._state = ToasterState.BreadInsertedState ∨
     Toaster.new._state = ToasterState.ToastingState ∨
     Toaster.new._state = ToasterState.BreadEjectedState) ∧
    (∀ t : Toaster, ∀ o : Op,
      (Toaster.apply o t).2._state = ToasterState.IdleState ∨
      (Toaster.apply o t).2._state = ToasterState.BreadInsertedState ∨
      (Toaster.apply o t).2._state = ToasterState.ToastingState ∨
      (Toaster.apply o t).2._state = ToasterState.BreadEjectedState) := by
  refine ⟨Or.inl rfl, ?_⟩
  intro t o
  cases h : (Toaster.apply o t).2._state <;> simp

/-- C10: two independently constructed Devices share no mutable state:
driving only the first through any sequence of operations never changes
the second, and in particular after the full four-operation cycle on the
first (which succeeds), the second fresh Device is still Idle. -/
theorem instances_are_independent :
    (∀ ops : List Op, ∀ w : TwoDevices,
      (TwoDevices.runFirst ops w).2.d2 = w.d2) ∧
    (TwoDevices.runFirst cycleOps ⟨Toaster.new, Toaster.new⟩).1 = Except.ok () ∧
    (TwoDevices.runFirst cycleOps ⟨Toaster.new, Toaster.new⟩).2.d2._state =
      ToasterState.IdleState := by
  refine ⟨?_, rfl, rfl⟩
  intro ops
  induction ops with
  | nil => intro w; rfl
  | cons o rest ih =>
    intro w
    simp only [TwoDevices.runFirst, TwoDevices.applyFirst]
    cases h : Toaster.apply o w.d1 with
    | mk r t' => cases r <;> simp [ih]

end Appliances
